import Mathlib

/-!
Verification development for the two `unfat` fine-tuning scripts of the
octofriend repository: `fast-apply/unfat/octofriend-fast-apply/train.py`
and `training/fix-json/unfat/train.py`.

Both scripts are straight-line Python modules that build a configuration
value out of literal arguments plus `os.environ` reads, and then invoke
library entry points (`upload_files` / `finetune` for the fast-apply
script, `save` for the fix-json script).  The `unfat` library itself is a
third-party dependency and is not part of the repository, so its entry
points are treated as opaque, possibly failing operations; its
configuration constructors are modelled as pure packagers of their
arguments, following the spec's description of the scripts as pure
parameter wiring.

The semantics of a script run is an event trace (which library entry
points were invoked, with which arguments) together with an outcome
(success, a Python `KeyError` from the environment lookup, or an error
propagated from a library call).
-/

/-- A Python exception raised by the script's own code.  The only one the
scripts can raise is `KeyError`, from an `os.environ[...]` lookup. -/
inductive PyErr where
  | keyError (key : String)
deriving DecidableEq, Repr

/-- The process environment: a partial map from variable names to values,
modelling `os.environ`. -/
structure Env where
  lookup : String → Option String

/-- Modelling of Python's `os.environ[key]`: returns the value when the
key is present and raises `KeyError(key)` otherwise. -/
def envGet (env : Env) (key : String) : Except PyErr String :=
  match env.lookup key with
  | some v => Except.ok v
  | none => Except.error (PyErr.keyError key)

/-- Modelled from the spec: the `unfat` library's `JsonlConvos` dataset
source (a JSONL conversation file), which the scripts construct from a
path; the library is not under src/, so it is modelled as a record of its
constructor argument. -/
structure JsonlConvos where
  path : String
deriving DecidableEq, Repr

/-- Modelled from the spec: the `unfat` library's `Dataset`, holding the
train and eval lists of JSONL conversation sources. -/
structure Dataset where
  train : List JsonlConvos
  eval : List JsonlConvos
deriving DecidableEq, Repr

/-- Modelled from the spec: the `unfat` library's `LoraSettings` record of
LoRA hyperparameters, with exactly the fields the two scripts pass: rank,
alpha, dropout, number of epochs, learning rate, and the
experiment-tracking credentials (wandb API key and project), plus the
optional `evals_per_epoch` that only the fix-json script passes.  The
fractional literals `0.01` and `4e-4` are modelled exactly as rationals,
since the scripts only store them. -/
structure LoraSettings where
  rank : Nat
  alpha : Nat
  dropout : ℚ
  num_epochs : Nat
  learning_rate : ℚ
  wandb_api_key : String
  wandb_project : String
  evals_per_epoch : Option Nat := none
deriving DecidableEq, Repr

/-- Modelled from the spec: the configuration value returned by the
`unfat` library's `llama_3_1_8b_together` constructor, packaging the
caller's arguments for a Together fine-tuning job. -/
structure TogetherConfig where
  output_dir : String
  dataset : Dataset
  settings : LoraSettings
  api_key : String
deriving DecidableEq, Repr

/-- Modelled from the spec: the configuration value returned by the
`unfat` library's `llama_3_1_8b_axolotl` constructor, packaging the
caller's arguments for a local axolotl fine-tuning job. -/
structure AxolotlConfig where
  dataset : Dataset
  settings : LoraSettings
  warmup_steps : Nat
deriving DecidableEq, Repr

/-- Modelled from the spec: `unfat.together.llama_3_1_8b_together`
packages its arguments into a Together configuration. -/
def llama_3_1_8b_together (output_dir : String) (dataset : Dataset)
    (settings : LoraSettings) (api_key : String) : TogetherConfig :=
  { output_dir := output_dir, dataset := dataset, settings := settings,
    api_key := api_key }

/-- Modelled from the spec: `unfat.axolotl.llama_3_1_8b_axolotl`
packages its arguments into an axolotl configuration. -/
def llama_3_1_8b_axolotl (dataset : Dataset) (settings : LoraSettings)
    (warmup_steps : Nat) : AxolotlConfig :=
  { dataset := dataset, settings := settings, warmup_steps := warmup_steps }

/-! String literals appearing in the scripts. -/

/-- The environment variable name for the wandb API key. -/
def wandbKeyName : String := "WANDB_API_KEY"

/-- The environment variable name for the Together API key. -/
def togetherKeyName : String := "TOGETHER_API_KEY"

/-- The `data/train.jsonl` path literal used by both scripts. -/
def trainPath : String := "data/train.jsonl"

/-- The `data/eval.jsonl` path literal used by both scripts. -/
def evalPath : String := "data/eval.jsonl"

/-- The dataset literal constructed identically by both scripts:
one `JsonlConvos` train entry and one `JsonlConvos` eval entry. -/
def scriptDataset : Dataset :=
  { train := [{ path := trainPath }], eval := [{ path := evalPath }] }

/-- The fast-apply script's module-level binding `output_dir = "output"`. -/
def fastApply_output_dir : String := "output"

/-- The fix-json script's module-level binding `output_dir = "output"`. -/
def fixJson_output_dir : String := "output"

/-- The fast-apply script's wandb project literal. -/
def fastApplyProject : String := "octofriend-fast-apply"

/-- The fix-json script's wandb project literal. -/
def fixJsonProject : String := "json-fix"

/-- Configuration construction of the fast-apply script
(`fast-apply/unfat/octofriend-fast-apply/train.py`, lines 8-28):
Python evaluates the keyword arguments in order, so the
`os.environ` read inside `LoraSettings` (the wandb key) happens before
the `api_key` read (the Together key); either missing key raises
`KeyError` before the library constructor is called. -/
def fastApplyConfig (env : Env) : Except PyErr TogetherConfig :=
  match envGet env wandbKeyName with
  | Except.error e => Except.error e
  | Except.ok wandbKey =>
    match envGet env togetherKeyName with
    | Except.error e => Except.error e
    | Except.ok togetherKey =>
      Except.ok (llama_3_1_8b_together fastApply_output_dir scriptDataset
        { rank := 32, alpha := 16, dropout := 1/100, num_epochs := 8,
          learning_rate := 4/10000, wandb_api_key := wandbKey,
          wandb_project := fastApplyProject }
        togetherKey)

/-- Configuration construction of the fix-json script
(`training/fix-json/unfat/train.py`, lines 8-28): a single
`os.environ` read, for the wandb key. -/
def fixJsonConfig (env : Env) : Except PyErr AxolotlConfig :=
  match envGet env wandbKeyName with
  | Except.error e => Except.error e
  | Except.ok wandbKey =>
    Except.ok (llama_3_1_8b_axolotl scriptDataset
      { rank := 32, alpha := 16, dropout := 1/100, num_epochs := 2,
        evals_per_epoch := some 10, learning_rate := 4/10000,
        wandb_api_key := wandbKey, wandb_project := fixJsonProject }
      10)

/-! Execution model.  The library entry points are opaque: they are
supplied as parameters (possibly failing, with an arbitrary error type
`ε`; `upload_files` returns a value of an arbitrary type `υ`).  A run
records the trace of library invocations and the final outcome. -/

/-- An invocation of a library entry point by one of the scripts. -/
inductive Event (υ : Type) where
  | upload_files (cfg : TogetherConfig)
  | finetune (cfg : TogetherConfig) (files : υ)
  | save (cfg : AxolotlConfig) (dir : String)
deriving Repr

/-- An error terminating a script run: either a Python exception raised
by the script's own code, or an error propagated from a library call. -/
inductive ScriptErr (ε : Type) where
  | py (e : PyErr)
  | lib (e : ε)
deriving Repr

/-- The observable result of running a script: the ordered trace of
library entry-point invocations, and the outcome. -/
structure RunResult (ε υ : Type) where
  events : List (Event υ)
  outcome : Except (ScriptErr ε) Unit
deriving Repr

/-- The opaque behaviour of the Together-side library entry points used
by the fast-apply script. -/
structure TogetherLib (ε υ : Type) where
  upload_files : TogetherConfig → Except ε υ
  finetune : TogetherConfig → υ → Except ε Unit

/-- The opaque behaviour of the axolotl-side library entry point used by
the fix-json script. -/
structure AxolotlLib (ε : Type) where
  save : AxolotlConfig → String → Except ε Unit

/-- End of the fast-apply script, after both library calls have been
made: by this point `upload_files` and `finetune` have been invoked, and
the run's outcome is `finetune`'s result, propagated unchanged. -/
def fastApplyDone {ε υ : Type} (cfg : TogetherConfig) (files : υ) :
    Except ε Unit → RunResult ε υ
  | Except.error e =>
    { events := [Event.upload_files cfg, Event.finetune cfg files],
      outcome := Except.error (ScriptErr.lib e) }
  | Except.ok _ =>
    { events := [Event.upload_files cfg, Event.finetune cfg files],
      outcome := Except.ok () }

/-- The fast-apply script's last statement,
`train_config.finetune(uploaded_files)` (line 31), reached with the
result of the `upload_files` call: if `upload_files` raised, it is never
executed and the error propagates; otherwise `finetune` is invoked on
exactly the value `upload_files` returned. -/
def fastApplyFinetune {ε υ : Type} (lib : TogetherLib ε υ)
    (cfg : TogetherConfig) : Except ε υ → RunResult ε υ
  | Except.error e =>
    { events := [Event.upload_files cfg],
      outcome := Except.error (ScriptErr.lib e) }
  | Except.ok uploaded_files =>
    fastApplyDone cfg uploaded_files (lib.finetune cfg uploaded_files)

/-- The fast-apply script's statements after the `train_config`
assignment: if configuration construction raised, nothing further runs
and the error propagates; otherwise
`uploaded_files = train_config.upload_files()` (line 30) executes. -/
def fastApplyCalls {ε υ : Type} (lib : TogetherLib ε υ) :
    Except PyErr TogetherConfig → RunResult ε υ
  | Except.error e =>
    { events := [], outcome := Except.error (ScriptErr.py e) }
  | Except.ok cfg => fastApplyFinetune lib cfg (lib.upload_files cfg)

/-- Execution of the fast-apply script, statement by statement: build
`train_config` (which may raise `KeyError`), then
`uploaded_files = train_config.upload_files()`, then
`train_config.finetune(uploaded_files)`.  Any error aborts the rest and
propagates unchanged. -/
def runFastApply {ε υ : Type} (lib : TogetherLib ε υ) (env : Env) :
    RunResult ε υ :=
  fastApplyCalls lib (fastApplyConfig env)

/-- End of the fix-json script, after `train_config.save(output_dir)`
has been invoked: the run's outcome is `save`'s result, propagated
unchanged. -/
def fixJsonDone {ε υ : Type} (cfg : AxolotlConfig) :
    Except ε Unit → RunResult ε υ
  | Except.error e =>
    { events := [Event.save cfg fixJson_output_dir],
      outcome := Except.error (ScriptErr.lib e) }
  | Except.ok _ =>
    { events := [Event.save cfg fixJson_output_dir],
      outcome := Except.ok () }

/-- The fix-json script's statements after the `train_config`
assignment: if configuration construction raised, nothing further runs
and the error propagates; otherwise `train_config.save(output_dir)`
(line 30) executes. -/
def fixJsonCalls {ε υ : Type} (lib : AxolotlLib ε) :
    Except PyErr AxolotlConfig → RunResult ε υ
  | Except.error e =>
    { events := [], outcome := Except.error (ScriptErr.py e) }
  | Except.ok cfg => fixJsonDone cfg (lib.save cfg fixJson_output_dir)

/-- Execution of the fix-json script, statement by statement: build
`train_config` (which may raise `KeyError`), then
`train_config.save(output_dir)`.  Any error propagates unchanged. -/
def runFixJson {ε υ : Type} (lib : AxolotlLib ε) (env : Env) :
    RunResult ε υ :=
  fixJsonCalls lib (fixJsonConfig env)

/-! Spec-side definitions for the refinement claim.  These follow the
spec's words rather than the scripts' statement sequence: each script is
"a single direct composition of library calls on a literal
configuration", with the literals written inline. -/

/-- Following the spec: the Together configuration "built from its
literal arguments plus two environment reads", as one composition of the
two reads, written with `Except.bind`/`Except.map` rather than the
script's statement sequence. -/
def fastApplyDirectConfig (env : Env) : Except PyErr TogetherConfig :=
  (envGet env (r"WANDB_API_KEY")).bind fun w =>
    (envGet env (r"TOGETHER_API_KEY")).map fun t =>
      { output_dir := "output",
        dataset := { train := [{ path := "data/train.jsonl" }],
                     eval := [{ path := "data/eval.jsonl" }] },
        settings := { rank := 32, alpha := 16, dropout := 1/100,
                      num_epochs := 8, learning_rate := 4/10000,
                      wandb_api_key := w,
                      wandb_project := "octofriend-fast-apply" },
        api_key := t }

/-- Following the spec: the axolotl configuration "built from its literal
arguments plus one environment read", as one composition. -/
def fixJsonDirectConfig (env : Env) : Except PyErr AxolotlConfig :=
  (envGet env (r"WANDB_API_KEY")).map fun w =>
    { dataset := { train := [{ path := "data/train.jsonl" }],
                   eval := [{ path := "data/eval.jsonl" }] },
      settings := { rank := 32, alpha := 16, dropout := 1/100,
                    num_epochs := 2, evals_per_epoch := some 10,
                    learning_rate := 4/10000, wandb_api_key := w,
                    wandb_project := "json-fix" },
      warmup_steps := 10 }

/-- Following the spec: the composition "finetune on the result of
upload_files", with any library error reflected into the outcome by
`Except.mapError`. -/
def fastApplyDirectCalls {ε υ : Type} (lib : TogetherLib ε υ)
    (cfg : TogetherConfig) : Except ε υ → RunResult ε υ
  | Except.error e =>
    { events := [Event.upload_files cfg],
      outcome := Except.error (ScriptErr.lib e) }
  | Except.ok files =>
    { events := [Event.upload_files cfg, Event.finetune cfg files],
      outcome := (lib.finetune cfg files).mapError ScriptErr.lib }

/-- Following the spec: the fast-apply script's behaviour as the single
direct composition "calling finetune on the result of upload_files" for
the literal Together configuration. -/
def fastApplyDirect {ε υ : Type} (lib : TogetherLib ε υ) (env : Env) :
    RunResult ε υ :=
  match fastApplyDirectConfig env with
  | Except.error e => { events := [], outcome := Except.error (ScriptErr.py e) }
  | Except.ok cfg => fastApplyDirectCalls lib cfg (lib.upload_files cfg)

/-- Following the spec: the fix-json script's behaviour as the single
direct call `save("output")` on the literal axolotl configuration. -/
def fixJsonDirect {ε υ : Type} (lib : AxolotlLib ε) (env : Env) :
    RunResult ε υ :=
  match fixJsonDirectConfig env with
  | Except.error e => { events := [], outcome := Except.error (ScriptErr.py e) }
  | Except.ok cfg =>
    { events := [Event.save cfg (r"output")],
      outcome := (lib.save cfg (r"output")).mapError ScriptErr.lib }

/-! Concrete environments and library behaviours, used by the witness
theorems to instantiate the opaque parameters. -/

/-- A concrete wandb API key value. -/
def wandbVal : String := "wandb-key-value"

/-- A concrete Together API key value. -/
def togetherVal : String := "together-key-value"

/-- A concrete library error value. -/
def libErrVal : String := "library failure"

/-- An environment holding both API keys. -/
def envBoth : Env :=
  { lookup := fun k =>
      if k = wandbKeyName then some wandbVal
      else if k = togetherKeyName then some togetherVal
      else none }

/-- The empty environment. -/
def envEmpty : Env := { lookup := fun _ => none }

/-- An environment holding only the wandb API key. -/
def envOnlyWandb : Env :=
  { lookup := fun k => if k = wandbKeyName then some wandbVal else none }

/-- Together-side library behaviour in which both entry points succeed
(with `Unit` as the uploaded-files type). -/
def togLibOk : TogetherLib String Unit :=
  { upload_files := fun _ => Except.ok (),
    finetune := fun _ _ => Except.ok () }

/-- Together-side library behaviour in which `upload_files` fails. -/
def togLibUploadFail : TogetherLib String Unit :=
  { upload_files := fun _ => Except.error libErrVal,
    finetune := fun _ _ => Except.ok () }

/-- Together-side library behaviour in which `finetune` fails. -/
def togLibFinetuneFail : TogetherLib String Unit :=
  { upload_files := fun _ => Except.ok (),
    finetune := fun _ _ => Except.error libErrVal }

/-- Axolotl-side library behaviour in which `save` succeeds. -/
def axLibOk : AxolotlLib String := { save := fun _ _ => Except.ok () }

/-- Axolotl-side library behaviour in which `save` fails. -/
def axLibFail : AxolotlLib String :=
  { save := fun _ _ => Except.error libErrVal }

/-- The `LoraSettings` value the fast-apply script passes, as a function
of the wandb API key read from the environment. -/
def fastApplySettings (w : String) : LoraSettings :=
  { rank := 32, alpha := 16, dropout := 1/100, num_epochs := 8,
    learning_rate := 4/10000, wandb_api_key := w,
    wandb_project := fastApplyProject }

/-- The `LoraSettings` value the fix-json script passes, as a function of
the wandb API key read from the environment. -/
def fixJsonSettings (w : String) : LoraSettings :=
  { rank := 32, alpha := 16, dropout := 1/100, num_epochs := 2,
    evals_per_epoch := some 10, learning_rate := 4/10000,
    wandb_api_key := w, wandb_project := fixJsonProject }

/-- The Together configuration the fast-apply script builds in the
environment `envBoth`. -/
def fastApplyCfgBoth : TogetherConfig :=
  llama_3_1_8b_together fastApply_output_dir scriptDataset
    (fastApplySettings wandbVal) togetherVal

/-- The axolotl configuration the fix-json script builds in any
environment whose wandb API key is `wandbVal`. -/
def fixJsonCfgBoth : AxolotlConfig :=
  llama_3_1_8b_axolotl scriptDataset (fixJsonSettings wandbVal) 10

/-- Whether a trace contains an `upload_files` or `finetune` invocation. -/
def callsUploadOrFinetune {υ : Type} (es : List (Event υ)) : Bool :=
  es.any fun e =>
    match e with
    | Event.upload_files _ => true
    | Event.finetune _ _ => true
    | Event.save _ _ => false

/-! Characterization lemmas for the configuration builders and the run
functions, by cases on the environment and the library outcomes. -/

theorem fastApplyConfig_ok (env : Env) (w t : String)
    (hw : env.lookup wandbKeyName = some w)
    (ht : env.lookup togetherKeyName = some t) :
    fastApplyConfig env = Except.ok
      (llama_3_1_8b_together fastApply_output_dir scriptDataset
        (fastApplySettings w) t) := by
  unfold fastApplyConfig envGet fastApplySettings
  rw [hw, ht]

theorem fastApplyConfig_err_wandb (env : Env)
    (hw : env.lookup wandbKeyName = none) :
    fastApplyConfig env = Except.error (PyErr.keyError wandbKeyName) := by
  unfold fastApplyConfig envGet
  rw [hw]

theorem fastApplyConfig_err_together (env : Env) (w : String)
    (hw : env.lookup wandbKeyName = some w)
    (ht : env.lookup togetherKeyName = none) :
    fastApplyConfig env = Except.error (PyErr.keyError togetherKeyName) := by
  unfold fastApplyConfig envGet
  rw [hw, ht]

theorem fixJsonConfig_ok (env : Env) (w : String)
    (hw : env.lookup wandbKeyName = some w) :
    fixJsonConfig env = Except.ok
      (llama_3_1_8b_axolotl scriptDataset (fixJsonSettings w) 10) := by
  unfold fixJsonConfig envGet fixJsonSettings
  rw [hw]

theorem fixJsonConfig_err (env : Env)
    (hw : env.lookup wandbKeyName = none) :
    fixJsonConfig env = Except.error (PyErr.keyError wandbKeyName) := by
  unfold fixJsonConfig envGet
  rw [hw]

theorem runFastApply_cfg_err {ε υ : Type} (lib : TogetherLib ε υ)
    (env : Env) (e : PyErr) (h : fastApplyConfig env = Except.error e) :
    runFastApply lib env =
      { events := [], outcome := Except.error (ScriptErr.py e) } := by
  unfold runFastApply
  rw [h]
  rfl

theorem runFastApply_cfg_ok {ε υ : Type} (lib : TogetherLib ε υ)
    (env : Env) (cfg : TogetherConfig)
    (h : fastApplyConfig env = Except.ok cfg) :
    runFastApply lib env =
      fastApplyFinetune lib cfg (lib.upload_files cfg) := by
  unfold runFastApply
  rw [h]
  rfl

theorem runFastApply_upload_fail {ε υ : Type} (lib : TogetherLib ε υ)
    (env : Env) (cfg : TogetherConfig) (e : ε)
    (h : fastApplyConfig env = Except.ok cfg)
    (hu : lib.upload_files cfg = Except.error e) :
    runFastApply lib env =
      { events := [Event.upload_files cfg],
        outcome := Except.error (ScriptErr.lib e) } := by
  rw [runFastApply_cfg_ok lib env cfg h, hu]
  rfl

theorem runFastApply_upload_ok {ε υ : Type} (lib : TogetherLib ε υ)
    (env : Env) (cfg : TogetherConfig) (files : υ)
    (h : fastApplyConfig env = Except.ok cfg)
    (hu : lib.upload_files cfg = Except.ok files) :
    runFastApply lib env =
      fastApplyDone cfg files (lib.finetune cfg files) := by
  rw [runFastApply_cfg_ok lib env cfg h, hu]
  rfl

theorem fastApplyDone_events {ε υ : Type} (cfg : TogetherConfig)
    (files : υ) (r : Except ε Unit) :
    (fastApplyDone cfg files r).events =
      [Event.upload_files cfg, Event.finetune cfg files] := by
  cases r <;> rfl

theorem runFixJson_cfg_err {ε υ : Type} (lib : AxolotlLib ε)
    (env : Env) (e : PyErr) (h : fixJsonConfig env = Except.error e) :
    (runFixJson lib env : RunResult ε υ) =
      { events := [], outcome := Except.error (ScriptErr.py e) } := by
  unfold runFixJson
  rw [h]
  rfl

theorem runFixJson_cfg_ok {ε υ : Type} (lib : AxolotlLib ε)
    (env : Env) (cfg : AxolotlConfig)
    (h : fixJsonConfig env = Except.ok cfg) :
    (runFixJson lib env : RunResult ε υ) =
      fixJsonDone cfg (lib.save cfg fixJson_output_dir) := by
  unfold runFixJson
  rw [h]
  rfl

theorem fixJsonDone_events {ε υ : Type} (cfg : AxolotlConfig)
    (r : Except ε Unit) :
    (fixJsonDone cfg r : RunResult ε υ).events =
      [Event.save cfg fixJson_output_dir] := by
  cases r <;> rfl

theorem envBoth_wandb : envBoth.lookup wandbKeyName = some wandbVal := by
  decide

theorem envBoth_together :
    envBoth.lookup togetherKeyName = some togetherVal := by
  decide

/-! Claim theorems. -/

/-- C1: Each of the two scripts declares an output directory (both bind
`output_dir` to "output") and a set of LoRA hyperparameters comprising
rank, alpha, dropout, number of epochs, learning rate, and
experiment-tracking credentials (a wandb API key read from the
environment and a wandb project name), passed to the library as a
`LoraSettings` value. -/
theorem C1_output_dir_and_lora_settings :
    fastApply_output_dir = "output" ∧ fixJson_output_dir = "output" ∧
    ∀ (env : Env) (w t : String),
      env.lookup wandbKeyName = some w →
      env.lookup togetherKeyName = some t →
      fastApplyConfig env = Except.ok
        { output_dir := fastApply_output_dir, dataset := scriptDataset,
          settings := { rank := 32, alpha := 16, dropout := 1/100,
                        num_epochs := 8, learning_rate := 4/10000,
                        wandb_api_key := w,
                        wandb_project := fastApplyProject },
          api_key := t } ∧
      fixJsonConfig env = Except.ok
        { dataset := scriptDataset,
          settings := { rank := 32, alpha := 16, dropout := 1/100,
                        num_epochs := 2, evals_per_epoch := some 10,
                        learning_rate := 4/10000, wandb_api_key := w,
                        wandb_project := fixJsonProject },
          warmup_steps := 10 } := by
  refine ⟨rfl, rfl, fun env w t hw ht => ⟨?_, ?_⟩⟩
  · rw [fastApplyConfig_ok env w t hw ht]
    rfl
  · rw [fixJsonConfig_ok env w hw]
    rfl

/-- Witness for C1 in the concrete environment `envBoth`. -/
theorem C1_witness :
    fastApplyConfig envBoth = Except.ok
      { output_dir := fastApply_output_dir, dataset := scriptDataset,
        settings := { rank := 32, alpha := 16, dropout := 1/100,
                      num_epochs := 8, learning_rate := 4/10000,
                      wandb_api_key := wandbVal,
                      wandb_project := fastApplyProject },
        api_key := togetherVal } ∧
    fixJsonConfig envBoth = Except.ok
      { dataset := scriptDataset,
        settings := { rank := 32, alpha := 16, dropout := 1/100,
                      num_epochs := 2, evals_per_epoch := some 10,
                      learning_rate := 4/10000, wandb_api_key := wandbVal,
                      wandb_project := fixJsonProject },
        warmup_steps := 10 } :=
  C1_output_dir_and_lora_settings.2.2 envBoth wandbVal togetherVal
    (by decide) (by decide)

/-- C3: In each of the two scripts, the dataset specification consists of
train and eval JSONL conversation files: the train list contains exactly
one `JsonlConvos` entry with path "data/train.jsonl" and the eval list
contains exactly one `JsonlConvos` entry with path "data/eval.jsonl". -/
theorem C3_dataset_jsonl (env : Env) :
    (∀ cfg : TogetherConfig, fastApplyConfig env = Except.ok cfg →
      cfg.dataset.train = [{ path := "data/train.jsonl" }] ∧
      cfg.dataset.eval = [{ path := "data/eval.jsonl" }]) ∧
    (∀ cfg : AxolotlConfig, fixJsonConfig env = Except.ok cfg →
      cfg.dataset.train = [{ path := "data/train.jsonl" }] ∧
      cfg.dataset.eval = [{ path := "data/eval.jsonl" }]) := by
  constructor
  · intro cfg h
    unfold fastApplyConfig at h
    rcases hw : envGet env wandbKeyName with e | w <;> rw [hw] at h
    · exact Except.noConfusion h
    · rcases ht : envGet env togetherKeyName with e | t <;> rw [ht] at h
      · exact Except.noConfusion h
      · injection h with h
        subst h
        exact ⟨rfl, rfl⟩
  · intro cfg h
    unfold fixJsonConfig at h
    rcases hw : envGet env wandbKeyName with e | w <;> rw [hw] at h
    · exact Except.noConfusion h
    · injection h with h
      subst h
      exact ⟨rfl, rfl⟩

/-- Witness for C3: in the environment `envBoth` the fast-apply script's
configuration carries exactly the two singleton JSONL dataset lists. -/
theorem C3_witness :
    fastApplyCfgBoth.dataset.train = [{ path := "data/train.jsonl" }] ∧
    fastApplyCfgBoth.dataset.eval = [{ path := "data/eval.jsonl" }] :=
  (C3_dataset_jsonl envBoth).1 fastApplyCfgBoth (by rfl)

/-- C9: Each script is straight-line: its run executes a fixed finite
sequence of library invocations, at most two for the fast-apply script
and at most one for the fix-json script, whatever the environment and
library behaviour. -/
theorem C9_straight_line {ε υ : Type} (tlib : TogetherLib ε υ)
    (alib : AxolotlLib ε) (env : Env) :
    (runFastApply tlib env).events.length ≤ 2 ∧
    (runFixJson alib env : RunResult ε υ).events.length ≤ 1 := by
  constructor
  · rcases hc : fastApplyConfig env with e | cfg
    · rw [runFastApply_cfg_err tlib env e hc]
      simp
    · rcases hu : tlib.upload_files cfg with e | files
      · rw [runFastApply_upload_fail tlib env cfg e hc hu]
        simp
      · rw [runFastApply_upload_ok tlib env cfg files hc hu,
          fastApplyDone_events]
        simp
  · rcases hc : fixJsonConfig env with e | cfg
    · rw [runFixJson_cfg_err alib env e hc]
      simp
    · rw [runFixJson_cfg_ok alib env cfg hc, fixJsonDone_events]
      simp

/-- C10: Configuration construction is deterministic in the environment:
runs with identical environment mappings construct identical
configurations, whose hyperparameters are rank 32, alpha 16,
dropout 0.01, learning rate 4e-4, with output directory "output" and the
shared dataset paths. -/
theorem C10_deterministic (env env2 : Env)
    (h : ∀ k, env.lookup k = env2.lookup k) :
    fastApplyConfig env = fastApplyConfig env2 ∧
    fixJsonConfig env = fixJsonConfig env2 ∧
    (∀ cfg : TogetherConfig, fastApplyConfig env = Except.ok cfg →
      cfg.output_dir = "output" ∧ cfg.dataset = scriptDataset ∧
      cfg.settings.rank = 32 ∧ cfg.settings.alpha = 16 ∧
      cfg.settings.dropout = 1/100 ∧
      cfg.settings.learning_rate = 4/10000) ∧
    (∀ cfg : AxolotlConfig, fixJsonConfig env = Except.ok cfg →
      cfg.dataset = scriptDataset ∧ cfg.settings.rank = 32 ∧
      cfg.settings.alpha = 16 ∧ cfg.settings.dropout = 1/100 ∧
      cfg.settings.learning_rate = 4/10000) := by
  refine ⟨?_, ?_, ?_, ?_⟩
  · unfold fastApplyConfig envGet
    rw [h wandbKeyName, h togetherKeyName]
  · unfold fixJsonConfig envGet
    rw [h wandbKeyName]
  · intro cfg hc
    unfold fastApplyConfig at hc
    rcases hw : envGet env wandbKeyName with e | w <;> rw [hw] at hc
    · exact Except.noConfusion hc
    · rcases ht : envGet env togetherKeyName with e | t <;> rw [ht] at hc
      · exact Except.noConfusion hc
      · injection hc with hc
        subst hc
        exact ⟨rfl, rfl, rfl, rfl, rfl, rfl⟩
  · intro cfg hc
    unfold fixJsonConfig at hc
    rcases hw : envGet env wandbKeyName with e | w <;> rw [hw] at hc
    · exact Except.noConfusion hc
    · injection hc with hc
      subst hc
      exact ⟨rfl, rfl, rfl, rfl, rfl⟩

/-- Witness for C10 at the concrete environment `envBoth`: the identical
environment yields the identical configuration, with the stated
hyperparameter values. -/
theorem C10_witness :
    fastApplyCfgBoth.output_dir = "output" ∧
    fastApplyCfgBoth.dataset = scriptDataset ∧
    fastApplyCfgBoth.settings.rank = 32 ∧
    fastApplyCfgBoth.settings.alpha = 16 ∧
    fastApplyCfgBoth.settings.dropout = 1/100 ∧
    fastApplyCfgBoth.settings.learning_rate = 4/10000 :=
  (C10_deterministic envBoth envBoth (fun _ => rfl)).2.2.1 fastApplyCfgBoth
    (by rfl)

/-- C4: In the fast-apply script, upload_files is invoked before
finetune, and finetune is applied to exactly the value returned by
upload_files: whenever a finetune invocation occurs in a run's trace,
the trace is exactly upload_files followed by that finetune, and the
finetune argument is the value upload_files returned. -/
theorem C4_upload_before_finetune {ε υ : Type} (lib : TogetherLib ε υ)
    (env : Env) (cfg : TogetherConfig) (files : υ)
    (h : Event.finetune cfg files ∈ (runFastApply lib env).events) :
    (runFastApply lib env).events =
      [Event.upload_files cfg, Event.finetune cfg files] ∧
    lib.upload_files cfg = Except.ok files := by
  rcases hc : fastApplyConfig env with e | cfg0
  · rw [runFastApply_cfg_err lib env e hc] at h
    simp at h
  · rcases hu : lib.upload_files cfg0 with e | files0
    · rw [runFastApply_upload_fail lib env cfg0 e hc hu] at h
      simp [fastApplyFinetune] at h
    · rw [runFastApply_upload_ok lib env cfg0 files0 hc hu] at h ⊢
      rw [fastApplyDone_events] at h
      simp at h
      rcases h with ⟨h1, h2⟩
      subst h1
      subst h2
      exact ⟨fastApplyDone_events _ _ _, hu⟩

/-- Witness for C4: a concrete successful fast-apply run whose trace
contains a finetune invocation. -/
theorem C4_witness :
    (runFastApply togLibOk envBoth).events =
      [Event.upload_files fastApplyCfgBoth,
       Event.finetune fastApplyCfgBoth ()] ∧
    togLibOk.upload_files fastApplyCfgBoth = Except.ok () := by
  have he : (runFastApply togLibOk envBoth).events =
      [Event.upload_files fastApplyCfgBoth,
       Event.finetune fastApplyCfgBoth ()] := rfl
  exact C4_upload_before_finetune togLibOk envBoth fastApplyCfgBoth ()
    (by rw [he]; exact List.Mem.tail _ (List.Mem.head _))

/-- C5: Neither script catches any exception: a KeyError raised during
configuration construction, or an error raised by a library entry point,
propagates to the top level unchanged. -/
theorem C5_error_propagation {ε υ : Type} (tlib : TogetherLib ε υ)
    (alib : AxolotlLib ε) (env : Env) :
    (∀ e : PyErr, fastApplyConfig env = Except.error e →
      (runFastApply tlib env).outcome = Except.error (ScriptErr.py e)) ∧
    (∀ (cfg : TogetherConfig) (e : ε),
      fastApplyConfig env = Except.ok cfg →
      tlib.upload_files cfg = Except.error e →
      (runFastApply tlib env).outcome = Except.error (ScriptErr.lib e)) ∧
    (∀ (cfg : TogetherConfig) (files : υ) (e : ε),
      fastApplyConfig env = Except.ok cfg →
      tlib.upload_files cfg = Except.ok files →
      tlib.finetune cfg files = Except.error e →
      (runFastApply tlib env).outcome = Except.error (ScriptErr.lib e)) ∧
    (∀ e : PyErr, fixJsonConfig env = Except.error e →
      (runFixJson alib env : RunResult ε υ).outcome =
        Except.error (ScriptErr.py e)) ∧
    (∀ (cfg : AxolotlConfig) (e : ε), fixJsonConfig env = Except.ok cfg →
      alib.save cfg fixJson_output_dir = Except.error e →
      (runFixJson alib env : RunResult ε υ).outcome =
        Except.error (ScriptErr.lib e)) := by
  refine ⟨?_, ?_, ?_, ?_, ?_⟩
  · intro e hc
    rw [runFastApply_cfg_err tlib env e hc]
  · intro cfg e hc hu
    rw [runFastApply_upload_fail tlib env cfg e hc hu]
  · intro cfg files e hc hu hf
    rw [runFastApply_upload_ok tlib env cfg files hc hu, hf]
    rfl
  · intro e hc
    rw [runFixJson_cfg_err alib env e hc]
  · intro cfg e hc hs
    rw [runFixJson_cfg_ok alib env cfg hc, hs]
    rfl

/-- Witness for C5: each propagation case at a concrete environment and
concrete library behaviour. -/
theorem C5_witness :
    (runFastApply togLibOk envEmpty).outcome =
      Except.error (ScriptErr.py (PyErr.keyError wandbKeyName)) ∧
    (runFastApply togLibUploadFail envBoth).outcome =
      Except.error (ScriptErr.lib libErrVal) ∧
    (runFastApply togLibFinetuneFail envBoth).outcome =
      Except.error (ScriptErr.lib libErrVal) ∧
    (runFixJson axLibOk envEmpty : RunResult String Unit).outcome =
      Except.error (ScriptErr.py (PyErr.keyError wandbKeyName)) ∧
    (runFixJson axLibFail envBoth : RunResult String Unit).outcome =
      Except.error (ScriptErr.lib libErrVal) :=
  ⟨(C5_error_propagation togLibOk axLibOk envEmpty).1
      (PyErr.keyError wandbKeyName) (by rfl),
   (C5_error_propagation togLibUploadFail axLibOk envBoth).2.1
      fastApplyCfgBoth libErrVal (by rfl) (by rfl),
   (C5_error_propagation togLibFinetuneFail axLibOk envBoth).2.2.1
      fastApplyCfgBoth () libErrVal (by rfl) (by rfl) (by rfl),
   (C5_error_propagation togLibOk axLibOk envEmpty).2.2.2.1
      (PyErr.keyError wandbKeyName) (by rfl),
   (C5_error_propagation togLibOk axLibFail envBoth).2.2.2.2
      fixJsonCfgBoth libErrVal (by rfl) (by rfl)⟩

/-- C6: If the environment lacks WANDB_API_KEY (either script) or
TOGETHER_API_KEY (the fast-apply script), the script raises KeyError
while constructing the configuration, before any library entry point is
invoked: the run's trace is empty, so no upload, fine-tune or save is
performed. -/
theorem C6_missing_key {ε υ : Type} (tlib : TogetherLib ε υ)
    (alib : AxolotlLib ε) (env : Env) :
    (env.lookup wandbKeyName = none →
      runFastApply tlib env =
        { events := [],
          outcome := Except.error (ScriptErr.py
            (PyErr.keyError wandbKeyName)) } ∧
      (runFixJson alib env : RunResult ε υ) =
        { events := [],
          outcome := Except.error (ScriptErr.py
            (PyErr.keyError wandbKeyName)) }) ∧
    (∀ w : String, env.lookup wandbKeyName = some w →
      env.lookup togetherKeyName = none →
      runFastApply tlib env =
        { events := [],
          outcome := Except.error (ScriptErr.py
            (PyErr.keyError togetherKeyName)) }) := by
  constructor
  · intro hw
    constructor
    · exact runFastApply_cfg_err tlib env _ (fastApplyConfig_err_wandb env hw)
    · exact runFixJson_cfg_err alib env _ (fixJsonConfig_err env hw)
  · intro w hw ht
    exact runFastApply_cfg_err tlib env _
      (fastApplyConfig_err_together env w hw ht)

/-- Witness for C6: the empty environment and the wandb-only
environment. -/
theorem C6_witness :
    runFastApply togLibOk envEmpty =
      { events := [],
        outcome := Except.error (ScriptErr.py
          (PyErr.keyError wandbKeyName)) } ∧
    (runFixJson axLibOk envEmpty : RunResult String Unit) =
      { events := [],
        outcome := Except.error (ScriptErr.py
          (PyErr.keyError wandbKeyName)) } ∧
    runFastApply togLibOk envOnlyWandb =
      { events := [],
        outcome := Except.error (ScriptErr.py
          (PyErr.keyError togetherKeyName)) } :=
  ⟨((C6_missing_key togLibOk axLibOk envEmpty).1 rfl).1,
   ((C6_missing_key togLibOk axLibOk envEmpty).1 rfl).2,
   (C6_missing_key togLibOk axLibOk envOnlyWandb).2 wandbVal (by decide)
     (by decide)⟩

/-- C7: Running the fix-json script performs serialization only: it
never invokes upload_files or finetune; when the configuration is built
its sole library invocation is save(output_dir); and its whole behaviour
depends on the environment only through WANDB_API_KEY, so it never reads
TOGETHER_API_KEY. -/
theorem C7_fixjson_save_only {ε υ : Type} (alib : AxolotlLib ε)
    (env env2 : Env) :
    (∀ c : TogetherConfig,
      Event.upload_files c ∉
        (runFixJson alib env : RunResult ε υ).events) ∧
    (∀ (c : TogetherConfig) (f : υ),
      Event.finetune c f ∉
        (runFixJson alib env : RunResult ε υ).events) ∧
    (∀ cfg : AxolotlConfig, fixJsonConfig env = Except.ok cfg →
      (runFixJson alib env : RunResult ε υ).events =
        [Event.save cfg fixJson_output_dir]) ∧
    (env.lookup wandbKeyName = env2.lookup wandbKeyName →
      (runFixJson alib env : RunResult ε υ) = runFixJson alib env2) := by
  refine ⟨?_, ?_, ?_, ?_⟩
  · intro c
    rcases hc : fixJsonConfig env with e | cfg
    · rw [runFixJson_cfg_err alib env e hc]
      simp
    · rw [runFixJson_cfg_ok alib env cfg hc, fixJsonDone_events]
      simp
  · intro c f
    rcases hc : fixJsonConfig env with e | cfg
    · rw [runFixJson_cfg_err alib env e hc]
      simp
    · rw [runFixJson_cfg_ok alib env cfg hc, fixJsonDone_events]
      simp
  · intro cfg hc
    rw [runFixJson_cfg_ok alib env cfg hc, fixJsonDone_events]
  · intro h
    unfold runFixJson fixJsonConfig envGet
    rw [h]

/-- Witness for C7: a concrete successful fix-json run, and the
independence of the run from everything but the wandb key (the
environments `envBoth` and `envOnlyWandb` differ exactly on
TOGETHER_API_KEY). -/
theorem C7_witness :
    Event.upload_files fastApplyCfgBoth ∉
      (runFixJson axLibOk envBoth : RunResult String Unit).events ∧
    Event.finetune fastApplyCfgBoth () ∉
      (runFixJson axLibOk envBoth : RunResult String Unit).events ∧
    (runFixJson axLibOk envBoth : RunResult String Unit).events =
      [Event.save fixJsonCfgBoth fixJson_output_dir] ∧
    (runFixJson axLibOk envBoth : RunResult String Unit) =
      runFixJson axLibOk envOnlyWandb :=
  ⟨(C7_fixjson_save_only axLibOk envBoth envOnlyWandb).1 fastApplyCfgBoth,
   (C7_fixjson_save_only axLibOk envBoth envOnlyWandb).2.1
     fastApplyCfgBoth (),
   (C7_fixjson_save_only axLibOk envBoth envOnlyWandb).2.2.1
     fixJsonCfgBoth (by rfl),
   (C7_fixjson_save_only axLibOk envBoth envOnlyWandb).2.2.2 (by decide)⟩

theorem fastApplyDirectConfig_eq (env : Env) :
    fastApplyDirectConfig env = fastApplyConfig env := by
  have hw : (r"WANDB_API_KEY" : String) = wandbKeyName := rfl
  have ht : (r"TOGETHER_API_KEY" : String) = togetherKeyName := rfl
  unfold fastApplyDirectConfig fastApplyConfig
  rw [hw, ht]
  rcases h : envGet env wandbKeyName with e | w
  · rfl
  · rcases h2 : envGet env togetherKeyName with e | t <;> rfl

theorem fixJsonDirectConfig_eq (env : Env) :
    fixJsonDirectConfig env = fixJsonConfig env := by
  have hw : (r"WANDB_API_KEY" : String) = wandbKeyName := rfl
  unfold fixJsonDirectConfig fixJsonConfig
  rw [hw]
  rcases h : envGet env wandbKeyName with e | w <;> rfl

/-- C8: Each script's behaviour equals a single direct composition of
library calls on a literal configuration: the fast-apply run equals
calling finetune on the result of upload_files for the Together
configuration built from its literal arguments plus two environment
reads, and the fix-json run equals calling save("output") on the axolotl
configuration built from its literal arguments plus one environment
read. -/
theorem C8_direct_composition {ε υ : Type} (tlib : TogetherLib ε υ)
    (alib : AxolotlLib ε) (env : Env) :
    runFastApply tlib env = fastApplyDirect tlib env ∧
    (runFixJson alib env : RunResult ε υ) = fixJsonDirect alib env := by
  constructor
  · unfold runFastApply fastApplyDirect
    rw [fastApplyDirectConfig_eq]
    rcases hc : fastApplyConfig env with e | cfg
    · rfl
    · show fastApplyFinetune tlib cfg (tlib.upload_files cfg) =
        fastApplyDirectCalls tlib cfg (tlib.upload_files cfg)
      rcases hu : tlib.upload_files cfg with e | files
      · rfl
      · show fastApplyDone cfg files (tlib.finetune cfg files) =
          { events := [Event.upload_files cfg, Event.finetune cfg files],
            outcome := (tlib.finetune cfg files).mapError ScriptErr.lib }
        rcases hf : tlib.finetune cfg files with e | u <;> rfl
  · unfold runFixJson fixJsonDirect
    rw [fixJsonDirectConfig_eq]
    rcases hc : fixJsonConfig env with e | cfg
    · rfl
    · show fixJsonDone cfg (alib.save cfg fixJson_output_dir) =
        { events := [Event.save cfg fixJson_output_dir],
          outcome := (alib.save cfg fixJson_output_dir).mapError
            ScriptErr.lib }
      rcases hs : alib.save cfg fixJson_output_dir with e | u <;> rfl

/-- C2 as stated ("each script invokes the entry points upload_files,
finetune, and save") is false at a concrete input: a complete successful
run of the fix-json script invokes neither upload_files nor finetune. -/
theorem C2_counterexample :
    callsUploadOrFinetune
        (runFixJson axLibOk envBoth : RunResult String Unit).events =
      false ∧
    (runFixJson axLibOk envBoth : RunResult String Unit).outcome =
      Except.ok () :=
  ⟨rfl, rfl⟩

/-- C2 (amended): Between them the two scripts invoke the three library
entry points: whenever its configuration is built and upload succeeds,
the fast-apply script's run invokes upload_files and then finetune, and
whenever its configuration is built, the fix-json script's run invokes
save. -/
theorem C2_amended_entry_points {ε υ : Type} (tlib : TogetherLib ε υ)
    (alib : AxolotlLib ε) (env : Env) (cfgT : TogetherConfig)
    (cfgA : AxolotlConfig) (files : υ)
    (hT : fastApplyConfig env = Except.ok cfgT)
    (hA : fixJsonConfig env = Except.ok cfgA)
    (hu : tlib.upload_files cfgT = Except.ok files) :
    (runFastApply tlib env).events =
      [Event.upload_files cfgT, Event.finetune cfgT files] ∧
    (runFixJson alib env : RunResult ε υ).events =
      [Event.save cfgA fixJson_output_dir] := by
  constructor
  · rw [runFastApply_upload_ok tlib env cfgT files hT hu]
    exact fastApplyDone_events cfgT files _
  · rw [runFixJson_cfg_ok alib env cfgA hA]
    exact fixJsonDone_events cfgA _

/-- Witness for the amended C2: concrete successful runs of both
scripts. -/
theorem C2_amended_witness :
    (runFastApply togLibOk envBoth).events =
      [Event.upload_files fastApplyCfgBoth,
       Event.finetune fastApplyCfgBoth ()] ∧
    (runFixJson axLibOk envBoth : RunResult String Unit).events =
      [Event.save fixJsonCfgBoth fixJson_output_dir] :=
  C2_amended_entry_points togLibOk axLibOk envBoth fastApplyCfgBoth
    fixJsonCfgBoth () (by rfl) (by rfl) (by rfl)
